import Mathlib

/-!
Verification of the conversational memory subsystem and its chat frontend.

The frontend definitions below are shallow embeddings of the React sources:
the chat context reducer and its async actions, the user profile page with its
manual memory-add form, and the message metadata panel. Asynchronous API calls
are modelled by passing the outcome of the call (Except) as an explicit
argument; React state updates are modelled as pure state transitions through
the reducer. JavaScript strings are Lean strings, numbers are rationals or
integers, null and undefined are Option.none, and NaN results of parseInt are
Option.none as well.

The backend memory subsystem (memory manager, scorer, stores) is not part of
the available sources; its operations are modelled from the specification and
carry doc comments starting with the words Modelled from the spec.
-/

/-- Model of JavaScript String.prototype.trim: drop whitespace from both ends. -/
def jsTrim (s : String) : String :=
  String.mk (((s.toList.dropWhile Char.isWhitespace).reverse.dropWhile
      Char.isWhitespace).reverse)

/-- Accumulate a list of decimal digit characters into a natural number. -/
def digitsToNat (ds : List Char) : Nat :=
  ds.foldl (fun acc c => 10 * acc + (c.toNat - 48)) 0

/-- Model of JavaScript parseInt(s) with default radix 10: skip leading
whitespace, read an optional sign and then the longest prefix of decimal
digits; the NaN result (no digits) is Option.none. -/
def parseIntJS (s : String) : Option Int :=
  let t := s.toList.dropWhile Char.isWhitespace
  let signAndRest : Int × List Char :=
    match t with
    | '-' :: r => (-1, r)
    | '+' :: r => (1, r)
    | r => (1, r)
  let ds := signAndRest.2.takeWhile Char.isDigit
  if ds.isEmpty then none
  else some (signAndRest.1 * (digitsToNat ds : Int))

/-- A chat message as built by the ChatContext provider. User messages carry
none in the response and metadata fields; bot messages fill them from the API
response. -/
structure Message where
  id : String
  message : String
  response : Option String
  timestamp : String
  isUser : Bool
  tone_used : Option String
  emotion_detected : Option (List (String × ℚ))
  memory_recalled : Option (List String)
  tokens_used : Option Nat
  response_time : Option ℚ
deriving DecidableEq

/-- A chat session as held in the sessions list; the client code inspects only
the session_id field. -/
structure Session where
  session_id : String
deriving DecidableEq

/-- Analytics data as read by the profile page. -/
structure AnalyticsData where
  total_messages : Nat
  average_tokens_per_response : ℚ
deriving DecidableEq

/-- The ChatContext state (initialState fields of the provider). -/
structure ChatState where
  messages : List Message
  sessions : List Session
  currentSessionId : Option String
  isLoading : Bool
  isTyping : Bool
  error : Option String
  analytics : Option AnalyticsData
deriving DecidableEq

/-- The actions dispatched to chatReducer. -/
inductive ChatAction where
  | SET_LOADING (b : Bool)
  | SET_TYPING (b : Bool)
  | SET_ERROR (e : Option String)
  | ADD_MESSAGE (m : Message)
  | SET_MESSAGES (ms : List Message)
  | SET_SESSIONS (ss : List Session)
  | SET_CURRENT_SESSION (sid : Option String)
  | ADD_SESSION (sess : Session)
  | DELETE_SESSION (sid : String)
  | SET_ANALYTICS (a : Option AnalyticsData)
  | CLEAR_MESSAGES
deriving DecidableEq

/-- The chatReducer of the ChatContext source, case by case. -/
def chatReducer (s : ChatState) (a : ChatAction) : ChatState :=
  match a with
  | .SET_LOADING b => { s with isLoading := b }
  | .SET_TYPING b => { s with isTyping := b }
  | .SET_ERROR e => { s with error := e }
  | .ADD_MESSAGE m => { s with messages := s.messages ++ [m] }
  | .SET_MESSAGES ms => { s with messages := ms }
  | .SET_SESSIONS ss => { s with sessions := ss }
  | .SET_CURRENT_SESSION sid => { s with currentSessionId := sid }
  | .ADD_SESSION sess => { s with sessions := sess :: s.sessions }
  | .DELETE_SESSION sid =>
      { s with
        sessions := s.sessions.filter (fun x => x.session_id != sid),
        currentSessionId :=
          if s.currentSessionId = some sid then none else s.currentSessionId,
        messages := if s.currentSessionId = some sid then [] else s.messages }
  | .SET_ANALYTICS a => { s with analytics := a }
  | .CLEAR_MESSAGES => { s with messages := [] }

/-- The successful payload of chatAPI.sendMessage as read by the provider. -/
structure ChatApiResponse where
  response : String
  session_id : String
  tone_used : Option String
  emotion_detected : Option (List (String × ℚ))
  memory_recalled : Option (List String)
  tokens_used : Option Nat
  response_time : Option ℚ
deriving DecidableEq

/-- The user message object sendMessage builds before calling the API. -/
def mkUserMessage (msgId msg ts : String) : Message :=
  { id := msgId, message := msg, response := none, timestamp := ts,
    isUser := true, tone_used := none, emotion_detected := none,
    memory_recalled := none, tokens_used := none, response_time := none }

/-- The bot message object sendMessage builds from a successful API response. -/
def mkBotMessage (msgId msg ts : String) (r : ChatApiResponse) : Message :=
  { id := msgId, message := msg, response := some r.response, timestamp := ts,
    isUser := false, tone_used := r.tone_used,
    emotion_detected := r.emotion_detected, memory_recalled := r.memory_recalled,
    tokens_used := r.tokens_used, response_time := r.response_time }

/-- The state of the provider right after the two dispatches that precede the
await of the API call in sendMessage: the user message is appended and the
typing flag is set. -/
def sendMessagePre (s : ChatState) (msg msgId ts : String) : ChatState :=
  chatReducer (chatReducer s (.ADD_MESSAGE (mkUserMessage msgId msg ts)))
    (.SET_TYPING true)

/-- The sendMessage action of the ChatContext provider. The outcome of the
chatAPI.sendMessage call and of the loadSessions refresh are passed as
arguments; fresh uuids and timestamps are arguments as well. The closure reads
state at call time, so the session comparison and the retained message list use
the initial state s. -/
def sendMessage (s : ChatState) (msg uMsgId uTs bMsgId bTs : String)
    (outcome : Except String ChatApiResponse)
    (reload : Except String (List Session)) : ChatState :=
  if jsTrim msg = "" then s
  else
    let s1 := sendMessagePre s msg uMsgId uTs
    let s2 :=
      match outcome with
      | .ok r =>
          let s2a := chatReducer s1 (.ADD_MESSAGE (mkBotMessage bMsgId msg bTs r))
          if some r.session_id ≠ s.currentSessionId then
            let s2b := chatReducer s2a (.SET_CURRENT_SESSION (some r.session_id))
            match reload with
            | .ok ss => chatReducer s2b (.SET_SESSIONS ss)
            | .error _ => s2b
          else s2a
      | .error e => chatReducer s1 (.SET_ERROR (some e))
    chatReducer s2 (.SET_TYPING false)

/-- The deleteSession action of the provider: the DELETE_SESSION dispatch only
happens when the chatAPI.deleteSession call succeeded; on a thrown error the
catch block shows a toast and dispatches nothing. -/
def deleteSession (s : ChatState) (sessionId : String)
    (apiResult : Except String Unit) : ChatState :=
  match apiResult with
  | .ok _ => chatReducer s (.DELETE_SESSION sessionId)
  | .error _ => s

/-- The newMemory form state of the UserProfile page. The importance_score
field holds the parseInt of whatever the user typed into the number input, so
Option.none stands for NaN. -/
structure NewMemoryForm where
  content : String
  memory_type : String
  importance_score : Option Int
deriving DecidableEq

/-- The initial (and post-submit reset) value of the newMemory form. -/
def initialNewMemory : NewMemoryForm :=
  { content := "", memory_type := "preference", importance_score := some 5 }

/-- The part of the UserProfile component state that handleAddMemory touches;
submitted records the sequence of addMemory API submissions. -/
structure ProfileState where
  newMemory : NewMemoryForm
  showAddMemory : Bool
  submitted : List NewMemoryForm
deriving DecidableEq

/-- handleAddMemory of the UserProfile page: if the trimmed content is empty it
returns at once (no submission, no state change); otherwise it submits the form
to addMemory, resets the form and hides it. -/
def handleAddMemory (s : ProfileState) : ProfileState :=
  if jsTrim s.newMemory.content = "" then s
  else
    { newMemory := initialNewMemory, showAddMemory := false,
      submitted := s.submitted ++ [s.newMemory] }

/-- The colors map of getMemoryTypeColor in the UserProfile page; its keys are
the memory_type values the component knows. -/
def memoryTypeColors : List (String × String) :=
  [("preference", "bg-blue-100 text-blue-800"),
   ("fact", "bg-green-100 text-green-800"),
   ("emotion", "bg-pink-100 text-pink-800"),
   ("context", "bg-gray-100 text-gray-800"),
   ("goal", "bg-purple-100 text-purple-800"),
   ("interest", "bg-yellow-100 text-yellow-800")]

/-- getMemoryTypeColor of the UserProfile page: look the type up in the colors
map and fall back to the fact color for anything outside the enumeration. -/
def getMemoryTypeColor (t : String) : String :=
  (memoryTypeColors.lookup t).getD "bg-green-100 text-green-800"

/-- The closed list of memory_type values of the component (keys of the colors
map). -/
def memoryTypeKeys : List String := memoryTypeColors.map Prod.fst

/-- The option values of the memory-type select in the manual add form of the
UserProfile page, in source order. -/
def manualAddTypeOptions : List String :=
  ["preference", "fact", "emotion", "goal", "interest"]

/-- Modelled from the spec and the HTML form constraints of the importance
input in the UserProfile page (input of number type with min 1 and max 10, no
required attribute, default step 1): browser constraint validation lets the
form submit when the field is empty, or when its value is a plain decimal
integer between 1 and 10. -/
def importanceFieldAllowsSubmit (u : String) : Bool :=
  u = "" ||
    (!u.toList.isEmpty && u.toList.all Char.isDigit &&
      (match parseIntJS u with
       | some n => decide (1 ≤ n ∧ n ≤ 10)
       | none => false))

/-- The onChange handler of the importance input: the stored form value is the
parseInt of the field text. -/
def importanceOnChange (u : String) : Option Int := parseIntJS u

/-- JavaScript greater-than on two possibly-absent numbers: a comparison
involving undefined (or NaN) is false. -/
def jsGtOpt (a b : Option ℚ) : Bool :=
  match a, b with
  | some x, some y => decide (y < x)
  | _, _ => false

/-- getDominantEmotion of the MessageMetadata component: null for a null,
undefined or empty emotions object; otherwise the reduce over Object.entries
that keeps the pair whose looked-up score is greater. The emotions object is
its entries list; lookups in the reduce go through the object as in the
source. -/
def getDominantEmotion (emotions : Option (List (String × ℚ))) :
    Option (String × ℚ) :=
  match emotions with
  | none => none
  | some [] => none
  | some (h :: t) =>
      some (t.foldl
        (fun a b =>
          if jsGtOpt ((h :: t).lookup a.1) ((h :: t).lookup b.1) then a else b)
        h)

/-- Modelled from the spec: the closed memory_type enumeration of the data
model (section 3); the source under src contains only the frontend, so the
backend record type is taken from the specification. -/
inductive MemoryType where
  | preference
  | fact
  | emotion
  | goal
  | interest
  | context
deriving DecidableEq

/-- Modelled from the spec: a MemoryEntry of the data model (section 3). The
backend structured store is missing from the sources; fields follow the
specification, with times as naturals and the embedding as a rational
vector. -/
structure MemoryEntry where
  id : Nat
  user_id : String
  content : String
  memory_type : MemoryType
  importance : Nat
  embedding : List ℚ
  created_at : Nat
  last_accessed_at : Nat
  access_count : Nat
deriving DecidableEq

/-- Modelled from the spec: a RetrievalQuery (section 3). -/
structure RetrievalQuery where
  user_id : String
  query_text : String
  k : Nat
  type_filter : Option MemoryType
deriving DecidableEq

/-- Modelled from the spec: a ScoredMemory, a MemoryEntry plus a transient
relevance value produced during retrieval (section 3). -/
structure ScoredMemory where
  entry : MemoryEntry
  relevance : ℚ
deriving DecidableEq

/-- Modelled from the spec: the combined_relevance formula of the Memory
Scorer (section 4.2): w1 times raw similarity plus w2 times importance over 10
plus w3 times the recency factor. The exponential recency curve is the
configurable function recencyFn applied to the idle time, as the spec leaves
the curve tunable. -/
def combined_relevance (w1 w2 w3 : ℚ) (recencyFn : Nat → ℚ) (e : MemoryEntry)
    (raw_similarity : ℚ) (now : Nat) : ℚ :=
  w1 * raw_similarity + w2 * ((e.importance : ℚ) / 10) +
    w3 * recencyFn (now - e.last_accessed_at)

/-- Modelled from the spec: decayed_importance of the Memory Scorer (section
4.2): importance reduced by a step proportional to the idle time since
last_accessed_at, floored at 0; entries whose access_count reaches the
protected threshold are never taken below the protected minimum of 1. The rate
and the threshold are configuration arguments. -/
def decayed_importance (decayRate protectedThreshold : Nat) (e : MemoryEntry)
    (now : Nat) : Int :=
  let idle := now - e.last_accessed_at
  let raw : Int := (e.importance : Int) - ((decayRate * idle : Nat) : Int)
  if protectedThreshold ≤ e.access_count then max raw 1 else max raw 0

/-- Whether an entry passes the optional memory_type filter of a query. -/
def matchesFilter (tf : Option MemoryType) (e : MemoryEntry) : Bool :=
  match tf with
  | none => true
  | some t => e.memory_type == t

/-- Descending order on vector index results: earlier pairs have the larger
raw similarity. -/
def simLE (a b : MemoryEntry × ℚ) : Prop := b.2 ≤ a.2

instance : DecidableRel simLE := fun a b => by
  unfold simLE; infer_instance

instance : IsTotal (MemoryEntry × ℚ) simLE :=
  ⟨fun a b => (le_total b.2 a.2).imp id id⟩

instance : IsTrans (MemoryEntry × ℚ) simLE :=
  ⟨fun _ _ _ hab hbc => le_trans hbc hab⟩

/-- Modelled from the spec: the query operation of the Vector Index adapter
(section 4.3), which is not in the sources. Results are restricted to the given
user and optional type filter, paired with the raw similarity of the query
vector against the entry embedding, sorted by descending similarity, and cut to
the requested count. The similarity function itself is the external
collaborator and is passed as an argument. -/
def vectorIndexQuery (sim : List ℚ → List ℚ → ℚ) (store : List MemoryEntry)
    (qvec : List ℚ) (uid : String) (k : Nat) (tf : Option MemoryType) :
    List (MemoryEntry × ℚ) :=
  let cands := (store.filter
      (fun e => e.user_id == uid && matchesFilter tf e)).map
      (fun e => (e, sim qvec e.embedding))
  (List.insertionSort simLE cands).take k

/-- Retrieval ranking order: descending combined relevance, ties broken by the
more recent last_accessed_at. -/
def rankLE (a b : ScoredMemory) : Prop :=
  b.relevance < a.relevance ∨
    (a.relevance = b.relevance ∧ b.entry.last_accessed_at ≤ a.entry.last_accessed_at)

instance : DecidableRel rankLE := fun a b => by
  unfold rankLE; infer_instance

instance : IsTotal ScoredMemory rankLE := ⟨by
  intro a b
  rcases lt_trichotomy a.relevance b.relevance with h | h | h
  · exact Or.inr (Or.inl h)
  · rcases Nat.le_total b.entry.last_accessed_at a.entry.last_accessed_at with h2 | h2
    · exact Or.inl (Or.inr ⟨h, h2⟩)
    · exact Or.inr (Or.inr ⟨h.symm, h2⟩)
  · exact Or.inl (Or.inl h)⟩

instance : IsTrans ScoredMemory rankLE := ⟨by
  intro a b c hab hbc
  rcases hab with h | ⟨he, hl⟩ <;> rcases hbc with h2 | ⟨he2, hl2⟩
  · exact Or.inl (h2.trans h)
  · exact Or.inl (he2 ▸ h)
  · exact Or.inl (he ▸ h2)
  · exact Or.inr ⟨he.trans he2, hl2.trans hl⟩⟩

/-- Modelled from the spec: retrieve of the Memory Manager (section 4.1),
which is not in the sources. It embeds the query text, asks the Vector Index
for a candidate superset of four times k results scoped to the user and the
optional type filter, scores every candidate with combined_relevance, and
returns the top k by combined score descending with ties broken by the more
recent last_accessed_at. The access-count side effect on returned entries is
not modelled; the claims concern the returned sequence. -/
def retrieve (sim : List ℚ → List ℚ → ℚ) (embed : String → List ℚ)
    (w1 w2 w3 : ℚ) (recencyFn : Nat → ℚ) (store : List MemoryEntry)
    (q : RetrievalQuery) (now : Nat) : List ScoredMemory :=
  let qvec := embed q.query_text
  let cands := vectorIndexQuery sim store qvec q.user_id (4 * q.k) q.type_filter
  let scored := cands.map
    (fun p => ⟨p.1, combined_relevance w1 w2 w3 recencyFn p.1 p.2 now⟩)
  (List.insertionSort rankLE scored).take q.k

/-- Modelled from the spec: the error taxonomy of section 7. -/
inductive StoreError where
  | TransientStoreFailure
  | Desync
  | NotFound
  | InvalidEntry
deriving DecidableEq

/-- Modelled from the spec: the delete operation of the Structured Store
adapter (section 4.4), which is not in the sources. Operations are scoped to
the user; a delete whose id does not exist for that user signals NotFound and
leaves the store as it was, never a silent no-op. -/
def store_delete (store : List MemoryEntry) (uid : String) (mid : Nat) :
    Except StoreError (List MemoryEntry) :=
  if store.any (fun e => e.id == mid && e.user_id == uid) then
    Except.ok (store.filter (fun e => !(e.id == mid && e.user_id == uid)))
  else Except.error StoreError.NotFound

/-- Example message for concrete evaluations. -/
def exMessage : Message :=
  { id := "m1", message := "hi", response := none, timestamp := "t0",
    isUser := true, tone_used := none, emotion_detected := none,
    memory_recalled := none, tokens_used := none, response_time := none }

/-- Example chat state with two sessions, the first one current. -/
def exChatState : ChatState :=
  { messages := [exMessage], sessions := [⟨"s1"⟩, ⟨"s2"⟩],
    currentSessionId := some "s1", isLoading := false, isTyping := false,
    error := none, analytics := none }

/-- Example stored entry of user bob. -/
def exEntryBob : MemoryEntry :=
  { id := 1, user_id := "bob", content := "likes tea",
    memory_type := MemoryType.preference, importance := 5, embedding := [1],
    created_at := 0, last_accessed_at := 0, access_count := 0 }

/-- Example stored entry of user alice. -/
def exAliceEntry : MemoryEntry :=
  { id := 1, user_id := "alice", content := "name is Alex",
    memory_type := MemoryType.fact, importance := 8, embedding := [1],
    created_at := 0, last_accessed_at := 5, access_count := 2 }

/-- Example retrieval query of user alice. -/
def exQuery : RetrievalQuery :=
  { user_id := "alice", query_text := "whats my name", k := 1,
    type_filter := none }

/-- Example entry with enough accesses to be protected from full decay. -/
def exHikingEntry : MemoryEntry :=
  { id := 2, user_id := "bob", content := "loves hiking",
    memory_type := MemoryType.interest, importance := 6, embedding := [1],
    created_at := 0, last_accessed_at := 10, access_count := 4 }

/-- Example profile state whose importance field was cleared by the user: the
onChange handler stored the parseInt of the empty string. -/
def profileStateBlankImportance : ProfileState :=
  { newMemory :=
      { content := "my favorite color is blue", memory_type := "fact",
        importance_score := importanceOnChange "" },
    showAddMemory := true, submitted := [] }

/-- C9: the DELETE_SESSION reducer case removes exactly the sessions whose
session_id equals the payload; when the deleted session is the current one the
current session id becomes null and the messages become empty, otherwise both
are unchanged; the loading flag, typing flag, error and analytics fields are
unchanged in every case. -/
theorem chatReducer_deleteSession_spec (s : ChatState) (sid : String) :
    (chatReducer s (ChatAction.DELETE_SESSION sid)).sessions =
      s.sessions.filter (fun x => x.session_id != sid) ∧
    (s.currentSessionId = some sid →
      (chatReducer s (ChatAction.DELETE_SESSION sid)).currentSessionId = none ∧
      (chatReducer s (ChatAction.DELETE_SESSION sid)).messages = []) ∧
    (s.currentSessionId ≠ some sid →
      (chatReducer s (ChatAction.DELETE_SESSION sid)).currentSessionId =
        s.currentSessionId ∧
      (chatReducer s (ChatAction.DELETE_SESSION sid)).messages = s.messages) ∧
    (chatReducer s (ChatAction.DELETE_SESSION sid)).isLoading = s.isLoading ∧
    (chatReducer s (ChatAction.DELETE_SESSION sid)).isTyping = s.isTyping ∧
    (chatReducer s (ChatAction.DELETE_SESSION sid)).error = s.error ∧
    (chatReducer s (ChatAction.DELETE_SESSION sid)).analytics = s.analytics := by
  refine ⟨rfl, fun h => ⟨?_, ?_⟩, fun h => ⟨?_, ?_⟩, rfl, rfl, rfl, rfl⟩ <;>
    simp [chatReducer, h]

/-- Witness for C9: deleting the current session s1 of the example state. -/
theorem chatReducer_deleteSession_spec_w :
    (chatReducer exChatState (ChatAction.DELETE_SESSION "s1")).sessions =
      exChatState.sessions.filter (fun x => x.session_id != "s1") ∧
    (chatReducer exChatState (ChatAction.DELETE_SESSION "s1")).currentSessionId =
      none ∧
    (chatReducer exChatState (ChatAction.DELETE_SESSION "s1")).messages = [] ∧
    (chatReducer exChatState (ChatAction.DELETE_SESSION "s1")).error =
      exChatState.error := by
  have h := chatReducer_deleteSession_spec exChatState "s1"
  exact ⟨h.1, (h.2.1 (by decide)).1, (h.2.1 (by decide)).2, h.2.2.2.2.2.1⟩

/-- C4: a manual memory add whose content is empty or whitespace only is
rejected before any submission: handleAddMemory returns with the state
unchanged and nothing submitted. -/
theorem handleAddMemory_blank_rejected (s : ProfileState)
    (h : jsTrim s.newMemory.content = "") :
    handleAddMemory s = s ∧ (handleAddMemory s).submitted = s.submitted := by
  constructor <;> simp [handleAddMemory, h]

/-- Witness for C4: a whitespace-only content is rejected with no effect. -/
theorem handleAddMemory_blank_rejected_w :
    jsTrim "   " = "" ∧
    (handleAddMemory ⟨⟨"   ", "fact", some 5⟩, true, []⟩ =
        ⟨⟨"   ", "fact", some 5⟩, true, []⟩ ∧
      (handleAddMemory ⟨⟨"   ", "fact", some 5⟩, true, []⟩).submitted = []) :=
  ⟨by decide, handleAddMemory_blank_rejected ⟨⟨"   ", "fact", some 5⟩, true, []⟩
    (by decide)⟩

/-- C5: deleting a memory id that does not exist for the user signals NotFound
to the caller and leaves the store as it was (the operation returns no new
store), and a deleteSession whose API call fails dispatches nothing, so the
local sessions list, current session id and messages — the whole client
state — are exactly as before the call. -/
theorem delete_missing_notFound (store : List MemoryEntry) (uid : String)
    (mid : Nat) (h : ∀ e ∈ store, ¬(e.id = mid ∧ e.user_id = uid))
    (s : ChatState) (sid err : String) :
    store_delete store uid mid = Except.error StoreError.NotFound ∧
    deleteSession s sid (Except.error err) = s := by
  refine ⟨?_, rfl⟩
  have hfalse : store.any (fun e => e.id == mid && e.user_id == uid) = false := by
    rw [List.any_eq_false]
    intro e he
    simp only [Bool.and_eq_true, beq_iff_eq, not_and]
    intro h1 h2
    exact h e he ⟨h1, h2⟩
  simp [store_delete, hfalse]

/-- Witness for C5: user bob holds only id 1; deleting id 2 is NotFound, and a
failed session delete leaves the example client state untouched. -/
theorem delete_missing_notFound_w :
    store_delete [exEntryBob] "bob" 2 = Except.error StoreError.NotFound ∧
    deleteSession exChatState "s9" (Except.error "oops") = exChatState :=
  delete_missing_notFound [exEntryBob] "bob" 2 (by decide) exChatState "s9" "oops"

/-- C8: for a message with non-whitespace text the user message is appended to
the message list and the typing flag raised before the API call; after
sendMessage completes the typing flag is false whether the call succeeded or
threw; and when the call throws, the appended user message stays in the list,
no bot message is added, and the error field is set to the thrown message. -/
theorem sendMessage_spec (s : ChatState) (msg uMsgId uTs bMsgId bTs : String)
    (outcome : Except String ChatApiResponse)
    (reload : Except String (List Session)) (h : jsTrim msg ≠ "") :
    (sendMessagePre s msg uMsgId uTs).messages =
      s.messages ++ [mkUserMessage uMsgId msg uTs] ∧
    (sendMessagePre s msg uMsgId uTs).isTyping = true ∧
    (sendMessage s msg uMsgId uTs bMsgId bTs outcome reload).isTyping = false ∧
    (∀ e, outcome = Except.error e →
      (sendMessage s msg uMsgId uTs bMsgId bTs outcome reload).messages =
        s.messages ++ [mkUserMessage uMsgId msg uTs] ∧
      (sendMessage s msg uMsgId uTs bMsgId bTs outcome reload).error = some e) := by
  refine ⟨rfl, rfl, ?_, ?_⟩
  · unfold sendMessage
    rw [if_neg h]
    rcases outcome with e | r
    · rfl
    · dsimp only
      by_cases hc : some r.session_id ≠ s.currentSessionId
      · rw [if_pos hc]
        rcases reload with e2 | ss <;> rfl
      · rw [if_neg hc]
        rfl
  · intro e he
    subst he
    unfold sendMessage
    rw [if_neg h]
    exact ⟨rfl, rfl⟩

/-- Witness for C8: a failing API call on the example state keeps the appended
user message and records the error, with the typing flag lowered. -/
theorem sendMessage_spec_w :
    (sendMessagePre exChatState "hello" "u1" "t1").messages =
      exChatState.messages ++ [mkUserMessage "u1" "hello" "t1"] ∧
    (sendMessagePre exChatState "hello" "u1" "t1").isTyping = true ∧
    (sendMessage exChatState "hello" "u1" "t1" "b1" "t2" (Except.error "boom")
      (Except.error "x")).isTyping = false ∧
    (sendMessage exChatState "hello" "u1" "t1" "b1" "t2" (Except.error "boom")
      (Except.error "x")).messages =
      exChatState.messages ++ [mkUserMessage "u1" "hello" "t1"] ∧
    (sendMessage exChatState "hello" "u1" "t1" "b1" "t2" (Except.error "boom")
      (Except.error "x")).error = some "boom" := by
  have h := sendMessage_spec exChatState "hello" "u1" "t1" "b1" "t2"
    (Except.error "boom") (Except.error "x") (by decide)
  exact ⟨h.1, h.2.1, h.2.2.1, (h.2.2.2 "boom" rfl).1, (h.2.2.2 "boom" rfl).2⟩

/-- In an object with pairwise distinct keys, looking a member pair up by its
key yields its value. -/
theorem lookup_eq_of_nodup {o : List (String × ℚ)}
    (hnd : (o.map Prod.fst).Nodup) {a : String × ℚ} (ha : a ∈ o) :
    o.lookup a.1 = some a.2 := by
  induction o with
  | nil => cases ha
  | cons hd t ih =>
      obtain ⟨k, v⟩ := hd
      rw [List.map_cons, List.nodup_cons] at hnd
      rcases List.mem_cons.1 ha with rfl | hat
      · simp [List.lookup]
      · have hne : (a.1 == k) = false := by
          rw [beq_eq_false_iff_ne]
          intro he
          have hmem : a.1 ∈ t.map Prod.fst := List.mem_map_of_mem Prod.fst hat
          rw [he] at hmem
          exact hnd.1 hmem
        simpa [List.lookup, hne] using ih hnd.2 hat

/-- The reduce of getDominantEmotion, generalized: folding the keep-the-larger
step over part of an object with distinct keys, from an accumulator that is a
member, lands on a member whose score dominates the accumulator and everything
folded over. -/
theorem foldl_dominant_spec (o : List (String × ℚ))
    (hnd : (o.map Prod.fst).Nodup) (t : List (String × ℚ)) :
    ∀ acc : String × ℚ, acc ∈ o → (∀ x ∈ t, x ∈ o) →
      (t.foldl (fun a b =>
          if jsGtOpt (o.lookup a.1) (o.lookup b.1) then a else b) acc) ∈ o ∧
      acc.2 ≤ (t.foldl (fun a b =>
          if jsGtOpt (o.lookup a.1) (o.lookup b.1) then a else b) acc).2 ∧
      ∀ x ∈ t, x.2 ≤ (t.foldl (fun a b =>
          if jsGtOpt (o.lookup a.1) (o.lookup b.1) then a else b) acc).2 := by
  induction t with
  | nil =>
      intro acc hacc _
      exact ⟨hacc, le_refl _, by intro x hx; cases hx⟩
  | cons x t ih =>
      intro acc hacc ht
      have hx : x ∈ o := ht x (List.mem_cons_self x t)
      have hstep : (if jsGtOpt (o.lookup acc.1) (o.lookup x.1) then acc else x) =
          if x.2 < acc.2 then acc else x := by
        rw [lookup_eq_of_nodup hnd hacc, lookup_eq_of_nodup hnd hx]
        simp [jsGtOpt]
      rw [List.foldl_cons, hstep]
      by_cases hc : x.2 < acc.2
      · rw [if_pos hc]
        obtain ⟨hm, hle, hall⟩ := ih acc hacc (fun y hy => ht y (List.mem_cons_of_mem x hy))
        refine ⟨hm, hle, ?_⟩
        intro y hy
        rcases List.mem_cons.1 hy with rfl | hyt
        · exact le_trans (le_of_lt hc) hle
        · exact hall y hyt
      · rw [if_neg hc]
        obtain ⟨hm, hle, hall⟩ := ih x hx (fun y hy => ht y (List.mem_cons_of_mem x hy))
        refine ⟨hm, le_trans (not_lt.1 hc) hle, ?_⟩
        intro y hy
        rcases List.mem_cons.1 hy with rfl | hyt
        · exact hle
        · exact hall y hyt

/-- C10: getDominantEmotion is null on a null or undefined emotions object and
on an empty one; on a non-empty object with distinct keys it returns one of its
entries, whose score is at least the score of every entry of the object. -/
theorem getDominantEmotion_spec (o : List (String × ℚ))
    (hnd : (o.map Prod.fst).Nodup) :
    getDominantEmotion none = none ∧
    getDominantEmotion (some []) = none ∧
    (o ≠ [] → ∃ p, getDominantEmotion (some o) = some p ∧ p ∈ o ∧
      ∀ x ∈ o, x.2 ≤ p.2) := by
  refine ⟨rfl, rfl, ?_⟩
  intro hne
  match o, hnd, hne with
  | h :: t, hnd, _ =>
      obtain ⟨hm, hle, hall⟩ := foldl_dominant_spec (h :: t) hnd t h
        (List.mem_cons_self h t) (fun x hx => List.mem_cons_of_mem h hx)
      refine ⟨_, rfl, hm, ?_⟩
      intro x hx
      rcases List.mem_cons.1 hx with rfl | hxt
      · exact hle
      · exact hall x hxt

/-- Witness for C10: on the joy and sadness scores the dominant emotion is a
member pair with the maximal score. -/
theorem getDominantEmotion_spec_w :
    getDominantEmotion none = none ∧
    getDominantEmotion (some []) = none ∧
    (∃ p, getDominantEmotion
        (some [("joy", (3 : ℚ)/10), ("sadness", (7 : ℚ)/10)]) = some p ∧
      p ∈ [("joy", (3 : ℚ)/10), ("sadness", (7 : ℚ)/10)] ∧
      ∀ x ∈ [("joy", (3 : ℚ)/10), ("sadness", (7 : ℚ)/10)], x.2 ≤ p.2) := by
  have h := getDominantEmotion_spec
    [("joy", (3 : ℚ)/10), ("sadness", (7 : ℚ)/10)] (by decide)
  exact ⟨h.1, h.2.1, h.2.2 (by decide)⟩

/-- Every pair returned by the Vector Index query is a stored entry of the
requested user passing the optional type filter. -/
theorem mem_vectorIndexQuery {sim : List ℚ → List ℚ → ℚ}
    {store : List MemoryEntry} {qvec : List ℚ} {uid : String} {k : Nat}
    {tf : Option MemoryType} {p : MemoryEntry × ℚ}
    (hp : p ∈ vectorIndexQuery sim store qvec uid k tf) :
    p.1 ∈ store ∧ p.1.user_id = uid ∧ matchesFilter tf p.1 = true := by
  simp only [vectorIndexQuery] at hp
  have h1 := (List.take_sublist _ _).subset hp
  have h2 := (List.perm_insertionSort simLE _).subset h1
  obtain ⟨e, he, rfl⟩ := List.mem_map.1 h2
  obtain ⟨hes, hcond⟩ := List.mem_filter.1 he
  simp only [Bool.and_eq_true] at hcond
  exact ⟨hes, beq_iff_eq.1 hcond.1, hcond.2⟩

/-- C1: every ScoredMemory returned by retrieve belongs to the user of the
query — no cross-user leakage, for every store, query, similarity function,
embedding provider and scorer configuration. -/
theorem retrieve_user_scoped (sim : List ℚ → List ℚ → ℚ)
    (embed : String → List ℚ) (w1 w2 w3 : ℚ) (recencyFn : Nat → ℚ)
    (store : List MemoryEntry) (q : RetrievalQuery) (now : Nat)
    (m : ScoredMemory)
    (hm : m ∈ retrieve sim embed w1 w2 w3 recencyFn store q now) :
    m.entry.user_id = q.user_id := by
  simp only [retrieve] at hm
  have h1 := (List.take_sublist _ _).subset hm
  have h2 := (List.perm_insertionSort rankLE _).subset h1
  obtain ⟨p, hp, rfl⟩ := List.mem_map.1 h2
  exact (mem_vectorIndexQuery hp).2.1

/-- Witness for C1: a one-entry store of user alice; the returned scored
memory carries the alice user id. -/
theorem retrieve_user_scoped_w :
    (⟨exAliceEntry,
        combined_relevance 1 0 0 (fun _ => 0) exAliceEntry 1 5⟩ : ScoredMemory) ∈
      retrieve (fun _ _ => 1) (fun _ => [1]) 1 0 0 (fun _ => 0)
        [exAliceEntry] exQuery 5 ∧
    exAliceEntry.user_id = "alice" :=
  ⟨List.mem_singleton.2 rfl,
    retrieve_user_scoped (fun _ _ => 1) (fun _ => [1]) 1 0 0 (fun _ => 0)
      [exAliceEntry] exQuery 5
      ⟨exAliceEntry, combined_relevance 1 0 0 (fun _ => 0) exAliceEntry 1 5⟩
      (List.mem_singleton.2 rfl)⟩

/-- C2: retrieve returns at most k results, sorted by descending combined
relevance with ties broken by the more recent last_accessed_at; a user with no
stored memories gets the empty sequence, and k equal to zero gets the empty
sequence — an empty result, never an error. -/
theorem retrieve_topk (sim : List ℚ → List ℚ → ℚ) (embed : String → List ℚ)
    (w1 w2 w3 : ℚ) (recencyFn : Nat → ℚ) (store : List MemoryEntry)
    (q : RetrievalQuery) (now : Nat) :
    (retrieve sim embed w1 w2 w3 recencyFn store q now).length ≤ q.k ∧
    List.Sorted rankLE (retrieve sim embed w1 w2 w3 recencyFn store q now) ∧
    (store.filter (fun e => e.user_id == q.user_id) = [] →
      retrieve sim embed w1 w2 w3 recencyFn store q now = []) ∧
    (q.k = 0 → retrieve sim embed w1 w2 w3 recencyFn store q now = []) := by
  refine ⟨?_, ?_, ?_, ?_⟩
  · simp only [retrieve]
    exact List.length_take_le _ _
  · simp only [retrieve]
    exact List.Pairwise.sublist (List.take_sublist _ _)
      (List.sorted_insertionSort rankLE _)
  · intro hempty
    have hsub : store.filter
        (fun e => e.user_id == q.user_id && matchesFilter q.type_filter e) = [] := by
      rw [List.filter_eq_nil_iff] at hempty ⊢
      intro e he hc
      simp only [Bool.and_eq_true] at hc
      exact hempty e he hc.1
    simp [retrieve, vectorIndexQuery, hsub]
  · intro hk
    simp [retrieve, hk]

/-- Witness for C2: the bounds on the one-entry alice store, and the empty
result on an empty store. -/
theorem retrieve_topk_w :
    (retrieve (fun _ _ => 1) (fun _ => [1]) 1 0 0 (fun _ => 0)
      [exAliceEntry] exQuery 5).length ≤ exQuery.k ∧
    List.Sorted rankLE (retrieve (fun _ _ => 1) (fun _ => [1]) 1 0 0
      (fun _ => 0) [exAliceEntry] exQuery 5) ∧
    retrieve (fun _ _ => 1) (fun _ => [1]) 1 0 0 (fun _ => 0) [] exQuery 5 = [] := by
  have h1 := retrieve_topk (fun _ _ => 1) (fun _ => [1]) 1 0 0 (fun _ => 0)
    [exAliceEntry] exQuery 5
  have h2 := retrieve_topk (fun _ _ => 1) (fun _ => [1]) 1 0 0 (fun _ => 0)
    [] exQuery 5
  exact ⟨h1.1, h1.2.1, h2.2.2.1 rfl⟩

/-- C3: for every decay rate and protected threshold configuration,
decayed_importance is non-increasing as time advances holding the entry (and
so its access_count) fixed, its result is never below the floor 0, and an
entry whose access_count is at or above the protected threshold never decays
below the protected minimum 1. -/
theorem decayed_importance_spec (decayRate protectedThreshold : Nat)
    (e : MemoryEntry) (t1 t2 : Nat) (h : t1 ≤ t2) :
    decayed_importance decayRate protectedThreshold e t2 ≤
      decayed_importance decayRate protectedThreshold e t1 ∧
    0 ≤ decayed_importance decayRate protectedThreshold e t2 ∧
    (protectedThreshold ≤ e.access_count →
      1 ≤ decayed_importance decayRate protectedThreshold e t2) := by
  unfold decayed_importance
  have hidle : t1 - e.last_accessed_at ≤ t2 - e.last_accessed_at :=
    Nat.sub_le_sub_right h _
  have hmul : decayRate * (t1 - e.last_accessed_at) ≤
      decayRate * (t2 - e.last_accessed_at) :=
    Nat.mul_le_mul (le_refl decayRate) hidle
  have hraw : (e.importance : Int) -
      ((decayRate * (t2 - e.last_accessed_at) : Nat) : Int) ≤
      (e.importance : Int) -
      ((decayRate * (t1 - e.last_accessed_at) : Nat) : Int) := by
    apply sub_le_sub_left
    exact_mod_cast hmul
  by_cases hp : protectedThreshold ≤ e.access_count
  · simp only [if_pos hp]
    exact ⟨max_le_max hraw (le_refl 1),
      le_trans zero_le_one (le_max_right _ 1), fun _ => le_max_right _ 1⟩
  · simp only [if_neg hp]
    exact ⟨max_le_max hraw (le_refl 0), le_max_right _ 0,
      fun hc => absurd hc hp⟩

/-- Witness for C3: the hiking entry with four accesses under rate 2 and
protected threshold 3, compared at times 11 and 14. -/
theorem decayed_importance_spec_w :
    decayed_importance 2 3 exHikingEntry 14 ≤
      decayed_importance 2 3 exHikingEntry 11 ∧
    0 ≤ decayed_importance 2 3 exHikingEntry 14 ∧
    1 ≤ decayed_importance 2 3 exHikingEntry 14 := by
  have h := decayed_importance_spec 2 3 exHikingEntry 11 14 (by decide)
  exact ⟨h.1, h.2.1, h.2.2 (by decide)⟩

/-- C6 counterexample: context is one of the six memory_type values of the
component (a key of the colors map), yet it is not among the options of the
memory-type select of the manual add form, so not every one of the six values
can be assigned through the manual add interface. -/
theorem manualAdd_missing_context :
    "context" ∈ memoryTypeKeys ∧ "context" ∉ manualAddTypeOptions := by
  decide

/-- C6 (amended): memory_type is a closed enumeration with exactly the six
values preference, fact, emotion, context, goal and interest — any string
outside it falls back to the fact color — and the manual add interface offers
exactly the five values preference, fact, emotion, goal and interest, each one
of the enumeration; context cannot be assigned through the manual add
interface. -/
theorem memoryType_closed_enum :
    memoryTypeKeys =
      ["preference", "fact", "emotion", "context", "goal", "interest"] ∧
    manualAddTypeOptions = ["preference", "fact", "emotion", "goal", "interest"] ∧
    manualAddTypeOptions.all (fun t => memoryTypeKeys.contains t) = true ∧
    "context" ∉ manualAddTypeOptions ∧
    getMemoryTypeColor "context" = "bg-gray-100 text-gray-800" ∧
    getMemoryTypeColor "banana" = "bg-green-100 text-green-800" := by
  decide

/-- C7: the importance bound of 1 to 10 is not enforced for a cleared field.
The empty importance field passes constraint validation because the input is
not required, the onChange handler has stored the parseInt of the empty
string — NaN — and the submitted memory then carries no integer importance
between 1 and 10, against the documented integer range of the field. -/
theorem importance_blank_field_nan :
    importanceFieldAllowsSubmit "" = true ∧
    importanceOnChange "" = none ∧
    (handleAddMemory profileStateBlankImportance).submitted =
      [{ content := "my favorite color is blue", memory_type := "fact",
         importance_score := none }] ∧
    ((handleAddMemory profileStateBlankImportance).submitted.all
      (fun f =>
        match f.importance_score with
        | some n => decide (1 ≤ n ∧ n ≤ 10)
        | none => false)) = false := by
  decide
